import Mathlib

/-!
Verification of the hubris sidecar front-IO LED subsystem against its
natural-language specification.  The definitions below are a shallow
embedding of the Rust sources:

  * `drv/i2c-devices/src/pca9956b.rs`  (PCA9956B LED-driver register protocol)
  * `drv/sidecar-front-io/src/leds.rs` (logical LED array over two drivers)
  * `drv/sidecar-seq-server/src/front_io.rs` and `main.rs` (bring-up)
  * `drv/transceivers-server/src/main.rs` (periodic timer handler)

I2C and FPGA transports are modelled as oracles (`BusEnv`, `CtrlEnv`):
each operation is answered by the environment, and every function also
returns the list of bus operations it issued, in order, so that claims
about transaction counts and ordering can be stated.  Machine integers
are modelled as `Nat`; register values are bytes (`0..255`) and the
bit operations of the source (`&`, `|`, `^`, `<<`, `>>`) are `Nat`
bitwise operations, which agree with the `u8`/`u32` versions on byte
and 32-bit inputs as used here.
-/

deriving instance DecidableEq for Except

namespace Hubris

/-- A raw I2C transaction, as seen by the external bus transport
(`drv_i2c_api`): a one-byte register read, an auto-increment block read
(the control byte already has the auto-increment bit OR'd in), or a raw
write whose first byte is the register address. -/
inductive BusOp where
  | readReg (addr : Nat)
  | readBlock (ctrl : Nat) (len : Nat)
  | write (data : List Nat)
deriving DecidableEq

/-- Oracle for the external I2C transport: answers for register reads,
block reads and writes.  Transport failures are `Except.error code`
with `code` modelling `drv_i2c_api::ResponseCode`. -/
structure BusEnv where
  readReg : Nat → Except Nat Nat
  readBlock : Nat → Nat → Except Nat (List Nat)
  write : List Nat → Except Nat Unit

namespace Pca9956B

/-- `pca9956b::Register` addresses used by the embedded code
(`MODE2 = 0x01`, `PWM0 = 0x0A`, `PWMALL = 0x3F`, `IREFALL = 0x40`,
`EFLAG0 = 0x41`). -/
def Register.MODE2 : Nat := 0x01

def Register.PWM0 : Nat := 0x0A

def Register.PWMALL : Nat := 0x3F

def Register.IREFALL : Nat := 0x40

def Register.EFLAG0 : Nat := 0x41

/-- Auto-increment flag: bit 7 of the control register (`CTRL_AUTO_INCR`). -/
def CTRL_AUTO_INCR : Nat := 128

/-- `MODE2_OVERTEMP`: bit 7 of MODE2. -/
def MODE2_OVERTEMP : Nat := 128

/-- `MODE2_ERROR`: bit 6 of MODE2. -/
def MODE2_ERROR : Nat := 64

/-- `MODE2_CLRERR`: bit 4 of MODE2. -/
def MODE2_CLRERR : Nat := 16

/-- `pca9956b::NUM_LEDS`. -/
def NUM_LEDS : Nat := 24

/-- Per-channel fault code (`pca9956b::LedErr`). -/
inductive LedErr where
  | NoError
  | ShortCircuit
  | OpenCircuit
  | Invalid
deriving DecidableEq

/-- `impl From<u8> for LedErr`: `0 => NoError, 1 => ShortCircuit,
2 => OpenCircuit, _ => Invalid`. -/
def LedErr.fromU8 (i : Nat) : LedErr :=
  if i = 0 then .NoError
  else if i = 1 then .ShortCircuit
  else if i = 2 then .OpenCircuit
  else .Invalid

/-- `pca9956b::Pca9956BErrorState`: one fault code per channel plus the
overtemperature flag. -/
structure Pca9956BErrorState where
  led_errors : List LedErr
  overtemp : Bool
deriving DecidableEq

/-- `pca9956b::LedErrSummary`. -/
structure LedErrSummary where
  overtemp : Bool
  short_circuit : Nat
  open_circuit : Nat
  invalid : Nat
deriving DecidableEq

/-- `Pca9956BErrorState::summary`: counts the short/open/invalid codes. -/
def Pca9956BErrorState.summary (s : Pca9956BErrorState) : LedErrSummary :=
  s.led_errors.foldl
    (fun acc err =>
      if err = .OpenCircuit then { acc with open_circuit := acc.open_circuit + 1 }
      else if err = .ShortCircuit then { acc with short_circuit := acc.short_circuit + 1 }
      else if err = .Invalid then { acc with invalid := acc.invalid + 1 }
      else acc)
    { overtemp := s.overtemp, short_circuit := 0, open_circuit := 0, invalid := 0 }

/-- `pca9956b::Error`: transport failure or out-of-range LED index. -/
inductive Error where
  | I2cError (code : Nat)
  | InvalidLED (led : Nat)
deriving DecidableEq

/-- `Pca9956B::read_reg`: one-byte register read. -/
def read_reg (env : BusEnv) (reg : Nat) : Except Error Nat × List BusOp :=
  match env.readReg reg with
  | .ok v => (.ok v, [.readReg reg])
  | .error c => (.error (.I2cError c), [.readReg reg])

/-- `Pca9956B::read_buffer`: auto-increment block read of `n` bytes
starting at `reg` (the control byte is `reg | CTRL_AUTO_INCR`). -/
def read_buffer (env : BusEnv) (reg : Nat) (n : Nat) :
    Except Error (List Nat) × List BusOp :=
  match env.readBlock (reg ||| CTRL_AUTO_INCR) n with
  | .ok bs => (.ok bs, [.readBlock (reg ||| CTRL_AUTO_INCR) n])
  | .error c => (.error (.I2cError c), [.readBlock (reg ||| CTRL_AUTO_INCR) n])

/-- `Pca9956B::write_reg`: writes `[reg, val]`. -/
def write_reg (env : BusEnv) (reg : Nat) (val : Nat) :
    Except Error Unit × List BusOp :=
  match env.write [reg, val] with
  | .ok _ => (.ok (), [.write [reg, val]])
  | .error c => (.error (.I2cError c), [.write [reg, val]])

/-- `Pca9956B::write_buffer`: auto-increment burst write; byte 0 is
`reg | CTRL_AUTO_INCR`, followed by the payload. -/
def write_buffer (env : BusEnv) (reg : Nat) (buf : List Nat) :
    Except Error Unit × List BusOp :=
  match env.write ((reg ||| CTRL_AUTO_INCR) :: buf) with
  | .ok _ => (.ok (), [.write ((reg ||| CTRL_AUTO_INCR) :: buf)])
  | .error c => (.error (.I2cError c), [.write ((reg ||| CTRL_AUTO_INCR) :: buf)])

/-- `Pca9956B::set_iref_all`. -/
def set_iref_all (env : BusEnv) (val : Nat) : Except Error Unit × List BusOp :=
  write_reg env Register.IREFALL val

/-- `Pca9956B::set_pwm_all`. -/
def set_pwm_all (env : BusEnv) (val : Nat) : Except Error Unit × List BusOp :=
  write_reg env Register.PWMALL val

/-- `Pca9956B::set_a_led_pwm`: rejects `led >= NUM_LEDS` before any
transaction, else writes the single register `PWM0 + led`. -/
def set_a_led_pwm (env : BusEnv) (led : Nat) (val : Nat) :
    Except Error Unit × List BusOp :=
  if led ≥ NUM_LEDS then (.error (.InvalidLED led), [])
  else write_reg env (Register.PWM0 + led) val

/-- `Pca9956B::set_all_led_pwm`: rejects `vals.len() > NUM_LEDS` before
any transaction (carrying `len as u8`, saturated at `0xFF`), else one
auto-increment burst starting at `PWM0`. -/
def set_all_led_pwm (env : BusEnv) (vals : List Nat) :
    Except Error Unit × List BusOp :=
  if vals.length > NUM_LEDS then
    (.error (.InvalidLED (if vals.length < 256 then vals.length else 0xFF)), [])
  else write_buffer env Register.PWM0 vals

/-- The nested decode loop of `Pca9956B::check_for_errors`: for
`i in 0..6`, `j in 0..=3`, sets `led_errors[i*4+j] :=
LedErr::from(eflag[i] & (0b11 << j*2))` over an all-`NoError`
(`Default`) initial array.  Note the source masks but does not shift. -/
def decodeEflags (eflags : List Nat) : List LedErr :=
  (List.range 6).foldl
    (fun acc i =>
      let eflag := eflags.getD i 0
      (List.range 4).foldl
        (fun acc2 j => acc2.set (i * 4 + j) (LedErr.fromU8 (eflag &&& (3 <<< (j * 2)))))
        acc)
    (List.replicate NUM_LEDS .NoError)

/-- `Pca9956B::check_for_errors`: reads MODE2; if neither OVERTEMP nor
ERROR is set returns `Ok(None)` with no further transaction; otherwise
reads the 6 EFLAG registers in one auto-increment burst, decodes them,
then writes MODE2 back as `mode2 & !MODE2_CLRERR` (`0xEF` is the u8
complement of `MODE2_CLRERR`), propagating a failed write. -/
def check_for_errors (env : BusEnv) :
    Except Error (Option Pca9956BErrorState) × List BusOp :=
  match read_reg env Register.MODE2 with
  | (.error e, t0) => (.error e, t0)
  | (.ok mode2, t0) =>
    let overtemp : Bool := mode2 &&& MODE2_OVERTEMP != 0
    let error : Bool := mode2 &&& MODE2_ERROR != 0
    if overtemp || error then
      match read_buffer env Register.EFLAG0 6 with
      | (.error e, t1) => (.error e, t0 ++ t1)
      | (.ok eflags, t1) =>
        let led_errors := decodeEflags eflags
        match write_reg env Register.MODE2 (mode2 &&& 0xEF) with
        | (.error e, t2) => (.error e, t0 ++ t1 ++ t2)
        | (.ok _, t2) =>
          (.ok (some ⟨led_errors, overtemp⟩), t0 ++ t1 ++ t2)
    else
      (.ok none, t0)

/-- Modelled from the spec (claim C1's wording, for comparison with the
source decode): channel `4i+j` of EFLAG byte `b` decodes as
`(b >> 2j) & 3`, mapped through the exhaustive two-bit table. -/
def specEflagDecode (b : Nat) (j : Nat) : LedErr :=
  LedErr.fromU8 ((b >>> (j * 2)) &&& 3)

end Pca9956B

open Pca9956B

/-- Environment for the C1/C2 failing input: MODE2 reads `0x40` (ERROR
set, OVERTEMP clear), the EFLAG burst returns `[0x04,0,0,0,0,0]`
(fault code `0b01` = short circuit on channel 1), writes succeed. -/
def envC1 : BusEnv :=
  { readReg := fun _ => .ok 0x40
    readBlock := fun _ _ => .ok [4, 0, 0, 0, 0, 0]
    write := fun _ => .ok () }

/-- Same device state as `envC1`, used for claim C2. -/
def envC2 : BusEnv :=
  { readReg := fun _ => .ok 0x40
    readBlock := fun _ _ => .ok [4, 0, 0, 0, 0, 0]
    write := fun _ => .ok () }

/-- As `envC2` but the MODE2 write-back fails with transport code 7. -/
def envC2fail : BusEnv :=
  { readReg := fun _ => .ok 0x40
    readBlock := fun _ _ => .ok [4, 0, 0, 0, 0, 0]
    write := fun _ => .error 7 }

/-- Claim C1 (code bug, evaluated at the failing input): with MODE2
signalling a fault, `check_for_errors` does read exactly 6 bytes from
EFLAG0 with auto-increment (`0x41 | 0x80 = 0xC1`), but the decode of
EFLAG byte `0x04` leaves channel 1 as `Invalid`, whereas the claimed
decode `(b >> 2) & 3 = 1` is `ShortCircuit`: the source masks
`eflag & (0b11 << 2j)` without shifting, so every nonzero fault code on
a channel with `j ≥ 1` collapses to `Invalid`. -/
theorem C1_decode_divergence :
    (Pca9956B.check_for_errors envC1).2 =
      [.readReg 0x01, .readBlock 0xC1 6, .write [0x01, 0x40]]
    ∧ (match (Pca9956B.check_for_errors envC1).1 with
       | .ok (some s) => s.led_errors.getD 1 .NoError
       | _ => .NoError) = .Invalid
    ∧ specEflagDecode 4 1 = .ShortCircuit
    ∧ LedErr.Invalid ≠ LedErr.ShortCircuit := by
  decide

/-- Claim C2 (code bug, evaluated at the failing input): after building
the snapshot for MODE2 = `0x40`, the write-back transaction is
`write [0x01, 0x40]`, i.e. the value `0x40 & !MODE2_CLRERR`, whose
clear-errors bit (bit 4) is 0 — the claim requires it set.  The
error-propagation half does hold: if the write fails the whole
operation returns the transport error, not the snapshot. -/
theorem C2_clear_write_divergence :
    (Pca9956B.check_for_errors envC2).2.getD 2 (.readReg 0) = .write [0x01, 0x40]
    ∧ 0x40 &&& MODE2_CLRERR = 0
    ∧ (Pca9956B.check_for_errors envC2fail).1 = .error (.I2cError 7)
    ∧ (Pca9956B.check_for_errors envC2fail).2 =
        [.readReg 0x01, .readBlock 0xC1 6, .write [0x01, 0x40]] := by
  decide

/-!  `drv/sidecar-front-io/src/leds.rs`  -/

/-- `leds::LedController`: selects the left or right PCA9956B. -/
inductive LedController where
  | Left
  | Right
deriving DecidableEq

/-- `leds::LedLocation`: the controller and channel driving one LED. -/
structure LedLocation where
  controller : LedController
  output : Nat
deriving DecidableEq

/-- `leds::DEFAULT_LED_PWM = 255`. -/
def DEFAULT_LED_PWM : Nat := 255

/-- `leds::DEFAULT_LED_CURRENT = 222`. -/
def DEFAULT_LED_CURRENT : Nat := 222

/-- `leds::SYSTEM_LED_IDX = 32`. -/
def SYSTEM_LED_IDX : Nat := 32

/-- `leds::LED_MAP`: ports 0..31 followed by the system LED, transcribed
entry by entry from the source table. -/
def LED_MAP : List LedLocation :=
  [ ⟨.Left, 0⟩, ⟨.Left, 2⟩, ⟨.Left, 4⟩, ⟨.Left, 6⟩,
    ⟨.Left, 8⟩, ⟨.Left, 10⟩, ⟨.Left, 15⟩, ⟨.Left, 13⟩,
    ⟨.Right, 0⟩, ⟨.Right, 2⟩, ⟨.Right, 4⟩, ⟨.Right, 6⟩,
    ⟨.Right, 8⟩, ⟨.Right, 10⟩, ⟨.Right, 15⟩, ⟨.Right, 13⟩,
    ⟨.Left, 3⟩, ⟨.Left, 1⟩, ⟨.Left, 7⟩, ⟨.Left, 5⟩,
    ⟨.Left, 9⟩, ⟨.Left, 11⟩, ⟨.Left, 14⟩, ⟨.Left, 12⟩,
    ⟨.Right, 3⟩, ⟨.Right, 1⟩, ⟨.Right, 7⟩, ⟨.Right, 5⟩,
    ⟨.Right, 9⟩, ⟨.Right, 11⟩, ⟨.Right, 14⟩, ⟨.Right, 12⟩,
    ⟨.Left, 23⟩ ]

/-- `leds::FullErrorSummary`. -/
structure FullErrorSummary where
  left : LedErrSummary
  right : LedErrSummary
deriving DecidableEq

namespace Leds

/-- `Leds::check_errors`: delegates to the selected controller's
`check_for_errors`; the trace tags each bus operation with the side it
was issued on. -/
def check_errors (envL envR : BusEnv) (c : LedController) :
    Except Error (Option Pca9956BErrorState) × List (LedController × BusOp) :=
  match c with
  | .Left =>
    let r := Pca9956B.check_for_errors envL
    (r.1, r.2.map (fun op => (LedController.Left, op)))
  | .Right =>
    let r := Pca9956B.check_for_errors envR
    (r.1, r.2.map (fun op => (LedController.Right, op)))

/-- `Leds::error_summary`: the left poll's result goes through
`unwrap_or(None)`; the right poll is commented out in the source, so the
second array entry is a literal `None`.  `no_errors` folds with `|`
starting from `true`, and the summary-building branch mirrors the
source's two `is_some` checks. -/
def error_summary (envL envR : BusEnv) :
    Except Error (Option FullErrorSummary) × List (LedController × BusOp) :=
  let rL := check_errors envL envR .Left
  let errs : List (Option Pca9956BErrorState) :=
    [ (match rL.1 with | .ok v => v | .error _ => none), none ]
  let no_errors : Bool := errs.foldl (fun no_error next => no_error || next.isNone) true
  if no_errors then
    (.ok none, rL.2)
  else
    let s0 : FullErrorSummary := ⟨⟨false, 0, 0, 0⟩, ⟨false, 0, 0, 0⟩⟩
    let s1 := match errs.getD 0 none with
      | some e => { s0 with left := e.summary }
      | none => s0
    let s2 := match errs.getD 1 none with
      | some e => { s1 with right := e.summary }
      | none => s1
    (.ok (some s2), rL.2)

/-- The buffer-building loop of `Leds::update_led_state`: two 16-entry
buffers initialised to 0; for each port `i in 0..32`, the entry at
`LED_MAP[i].output` on `LED_MAP[i].controller`'s side is set to
`DEFAULT_LED_PWM` when bit `i` of the mask is set, else 0. -/
def update_buffers (mask : Nat) : List Nat × List Nat :=
  (List.range 32).foldl
    (fun bufs i =>
      let pwm := if mask &&& (1 <<< i) ≠ 0 then DEFAULT_LED_PWM else 0
      let loc := LED_MAP.getD i ⟨.Left, 0⟩
      if loc.controller = .Left then (bufs.1.set loc.output pwm, bufs.2)
      else (bufs.1, bufs.2.set loc.output pwm))
    (List.replicate 16 0, List.replicate 16 0)

/-- `Leds::update_led_state`: builds both buffers, then issues one
`set_all_led_pwm` burst on the left controller and (if it succeeded)
one on the right. -/
def update_led_state (envL envR : BusEnv) (mask : Nat) :
    Except Error Unit × List (LedController × BusOp) :=
  let bufs := update_buffers mask
  match Pca9956B.set_all_led_pwm envL bufs.1 with
  | (.error e, t1) => (.error e, t1.map (fun op => (LedController.Left, op)))
  | (.ok _, t1) =>
    match Pca9956B.set_all_led_pwm envR bufs.2 with
    | (.error e, t2) =>
      (.error e, t1.map (fun op => (LedController.Left, op))
        ++ t2.map (fun op => (LedController.Right, op)))
    | (.ok _, t2) =>
      (.ok (), t1.map (fun op => (LedController.Left, op))
        ++ t2.map (fun op => (LedController.Right, op)))

end Leds

/-- Claim C9: the LED location table has exactly 33 entries, no two
entries share the same (side, channel) pair (an entry is exactly such a
pair, so this is `Nodup`), and every channel lies in `0..23`. -/
theorem C9_led_map_invariants :
    LED_MAP.length = 33 ∧ LED_MAP.Nodup ∧ ∀ l ∈ LED_MAP, l.output < 24 := by
  decide

/-- Claim C4: for every environment (hence every chip state and every
transport outcome), `Leds::error_summary` returns `Ok(None)`: the left
poll's outcome is swallowed by `unwrap_or(None)`, the right poll is
absent, and the `no_errors` fold starts at `true` and combines with
`|`, so it is always `true`. -/
theorem C4_error_summary_always_ok_none :
    ∀ envL envR : BusEnv, (Leds.error_summary envL envR).1 = .ok none := by
  intro envL envR
  rfl

/-- An environment whose every transaction fails with transport code 3. -/
def envAllFail : BusEnv :=
  { readReg := fun _ => .error 3
    readBlock := fun _ _ => .error 3
    write := fun _ => .error 3 }

/-- An environment for a healthy, fault-free chip: MODE2 reads 0
(no OVERTEMP, no ERROR), all transactions succeed. -/
def envClean : BusEnv :=
  { readReg := fun _ => .ok 0
    readBlock := fun _ _ => .ok [0, 0, 0, 0, 0, 0]
    write := fun _ => .ok () }

/-- Claim C3, counterexample: with the left driver's bus failing
(its poll returns a transport error), `error_summary` still returns
`Ok(None)` — exactly the value it returns when both sides are healthy
and fault-free — so the failed side is folded into "no fault" rather
than surfaced as a reporting failure. -/
theorem C3_counterexample :
    (Pca9956B.check_for_errors envAllFail).1 = .error (.I2cError 3)
    ∧ (Leds.error_summary envAllFail envClean).1 = .ok none
    ∧ (Leds.error_summary envClean envClean).1 = .ok none := by
  decide

/-- Claim C3 as amended: whenever the left side's poll fails with a
transport error, `error_summary` reports `Ok(None)` (indistinguishable
from the all-clear result), and the right driver is never polled at
all: every operation in the trace is on the left side. -/
theorem C3_failed_poll_folded (envL envR : BusEnv) (e : Error)
    (hfail : (Pca9956B.check_for_errors envL).1 = .error e) :
    (Leds.check_errors envL envR .Left).1 = .error e
    ∧ (Leds.error_summary envL envR).1 = .ok none
    ∧ ∀ p ∈ (Leds.error_summary envL envR).2, p.1 = LedController.Left := by
  refine ⟨hfail, rfl, ?_⟩
  intro p hp
  simp only [Leds.error_summary, Leds.check_errors] at hp
  rw [if_pos] at hp
  · rcases List.mem_map.mp hp with ⟨op, _, rfl⟩
    rfl
  · rfl

/-- Witness for `C3_failed_poll_folded` at the concrete failing
environment. -/
theorem C3_failed_poll_folded_witness :
    (Leds.error_summary envAllFail envClean).1 = .ok none :=
  (C3_failed_poll_folded envAllFail envClean (.I2cError 3) (by decide)).2.1

/-!  Characterisation of the buffers built by `Leds::update_led_state`.

Per side, each of the 16 buffer entries is written by exactly one port:
`portsL`/`portsR` list, for each channel `0..15`, the index of the port
whose `LED_MAP` entry maps to that channel.  -/

/-- The PWM value `update_led_state` computes for port `i`:
`DEFAULT_LED_PWM` when bit `i` of the mask is set, else 0. -/
def pwmOf (mask i : Nat) : Nat :=
  if mask &&& (1 <<< i) ≠ 0 then DEFAULT_LED_PWM else 0

/-- For each left channel `c = 0..15`, the port mapped to it. -/
def portsL : List Nat := [0, 17, 1, 16, 2, 19, 3, 18, 4, 20, 5, 21, 23, 7, 22, 6]

/-- For each right channel `c = 0..15`, the port mapped to it. -/
def portsR : List Nat := [8, 25, 9, 24, 10, 27, 11, 26, 12, 28, 13, 29, 31, 15, 30, 14]

set_option maxHeartbeats 1600000 in
/-- Unfolding the 32-step buffer-building loop: each side's buffer is
the per-channel PWM value of the port mapped to that channel. -/
theorem update_buffers_eq (mask : Nat) :
    Leds.update_buffers mask = (portsL.map (pwmOf mask), portsR.map (pwmOf mask)) := rfl

/-- Number of positions at which two buffers differ. -/
def diffCount (l1 l2 : List Nat) : Nat :=
  (l1.zip l2).countP (fun p => p.1 != p.2)

theorem diffCount_map (l : List Nat) (f g : Nat → Nat) :
    diffCount (l.map f) (l.map g) = l.countP (fun x => f x != g x) := by
  rw [diffCount, List.zip_map', List.countP_map]
  rfl

theorem and_one_shiftLeft_ne_zero (m x : Nat) :
    (m &&& (1 <<< x) ≠ 0) ↔ m.testBit x = true := by
  rw [Nat.one_shiftLeft, Nat.and_two_pow]
  cases h : m.testBit x
  · simp
  · simp [(Nat.two_pow_pos x).ne']

theorem pwmOf_eq_testBit (m x : Nat) :
    pwmOf m x = if m.testBit x then DEFAULT_LED_PWM else 0 := by
  simp only [pwmOf, and_one_shiftLeft_ne_zero]

/-- Toggling bit `i` of the mask flips port `i`'s PWM value and no
other port's. -/
theorem pwm_diff_pointwise (m i x : Nat) :
    (pwmOf m x != pwmOf (m ^^^ (1 <<< i)) x) = (x == i) := by
  rw [pwmOf_eq_testBit, pwmOf_eq_testBit, Nat.one_shiftLeft, Nat.testBit_xor,
    Nat.testBit_two_pow]
  by_cases h : x = i
  · subst h
    cases hm : m.testBit x <;> simp [hm, DEFAULT_LED_PWM]
  · have h2 : (i = x) = False := by simp [Ne.symm h]
    have h3 : (x == i) = false := by simp [h]
    simp [h2, h3]

theorem countP_diff_eq_count (m i : Nat) (ports : List Nat) :
    ports.countP (fun x => pwmOf m x != pwmOf (m ^^^ (1 <<< i)) x) = ports.count i := by
  rw [List.count_eq_countP]
  exact List.countP_congr (fun x _ => by rw [pwm_diff_pointwise])

theorem diffCount_toggle (m i : Nat) (ports : List Nat) :
    diffCount (ports.map (pwmOf m)) (ports.map (pwmOf (m ^^^ (1 <<< i)))) = ports.count i := by
  rw [diffCount_map, countP_diff_eq_count]

theorem map_eq_of_countP_zero (l : List Nat) (f g : Nat → Nat)
    (h : l.countP (fun x => f x != g x) = 0) : l.map f = l.map g := by
  refine List.map_congr_left (fun a ha => ?_)
  have h2 := List.countP_eq_zero.mp h a ha
  simp only [bne_iff_ne, ne_eq, not_not] at h2
  exact h2

/-- Every port index `0..31` appears exactly once across the two
per-channel port lists: the per-side channel assignments partition the
32 ports. -/
theorem ports_count_partition : ∀ i, i < 32 → portsL.count i + portsR.count i = 1 := by
  decide

/-- Claim C6: `update_led_state`'s buffers are a pure function of the
mask (two calls with identical masks produce byte-identical buffers),
and toggling any one logical-port bit changes exactly one entry of the
two buffers — located in exactly one side's buffer, the other side's
buffer being unchanged. -/
theorem C6_idempotent_single_toggle :
    ∀ mask mask2 : Nat, mask2 = mask →
      Leds.update_buffers mask2 = Leds.update_buffers mask
      ∧ ∀ i, i < 32 →
        diffCount (Leds.update_buffers mask).1 (Leds.update_buffers (mask ^^^ (1 <<< i))).1
          + diffCount (Leds.update_buffers mask).2 (Leds.update_buffers (mask ^^^ (1 <<< i))).2
          = 1
        ∧ ((Leds.update_buffers mask).1 = (Leds.update_buffers (mask ^^^ (1 <<< i))).1
            ∨ (Leds.update_buffers mask).2 = (Leds.update_buffers (mask ^^^ (1 <<< i))).2) := by
  intro mask mask2 hmask
  subst hmask
  refine ⟨rfl, fun i hi => ?_⟩
  have hsum := ports_count_partition i hi
  simp only [update_buffers_eq]
  constructor
  · rw [diffCount_toggle, diffCount_toggle]
    exact hsum
  · by_cases h0 : portsL.count i = 0
    · exact Or.inl (map_eq_of_countP_zero portsL _ _
        (by rw [countP_diff_eq_count]; exact h0))
    · have hr : portsR.count i = 0 := by omega
      exact Or.inr (map_eq_of_countP_zero portsR _ _
        (by rw [countP_diff_eq_count]; exact hr))

/-- Witness for `C6_idempotent_single_toggle` at mask 5, toggled bit 0. -/
theorem C6_idempotent_single_toggle_witness :
    diffCount (Leds.update_buffers 5).1 (Leds.update_buffers (5 ^^^ (1 <<< 0))).1
      + diffCount (Leds.update_buffers 5).2 (Leds.update_buffers (5 ^^^ (1 <<< 0))).2 = 1 :=
  ((C6_idempotent_single_toggle 5 5 rfl).2 0 (by decide)).1

/-- Claim C5, counterexample: the per-side buffer built by
`update_led_state` has 16 entries, not the claimed 24 (registers
PWM16..PWM23, including the system LED channel 23, are never part of
the burst). -/
theorem C5_counterexample :
    (Leds.update_buffers 0).1.length = 16 ∧ (16 : Nat) ≠ 24 := by
  decide

/-- Claim C5 as amended: for every mask, `update_led_state` builds a
16-entry buffer per side (channels 0..15, the ones the port map uses),
defaulting to 0, with each port's mapped entry set to
`DEFAULT_LED_PWM` exactly when the port's mask bit is set, and issues
exactly one `set_all_led_pwm` burst per side, each a single write whose
control byte is `PWM0 | CTRL_AUTO_INCR` — exactly two I2C transactions
regardless of the mask. -/
theorem C5_two_bursts (mask : Nat) (envL envR : BusEnv)
    (hL : ∀ d, envL.write d = .ok ()) (hR : ∀ d, envR.write d = .ok ()) :
    (Leds.update_led_state envL envR mask).1 = .ok ()
    ∧ (Leds.update_led_state envL envR mask).2 =
        [ (LedController.Left,
            .write ((Register.PWM0 ||| CTRL_AUTO_INCR) :: (Leds.update_buffers mask).1)),
          (LedController.Right,
            .write ((Register.PWM0 ||| CTRL_AUTO_INCR) :: (Leds.update_buffers mask).2)) ]
    ∧ (Leds.update_buffers mask).1.length = 16
    ∧ (Leds.update_buffers mask).2.length = 16
    ∧ ∀ i, i < 32 →
        ((LED_MAP.getD i ⟨.Left, 0⟩).controller = .Left →
          (Leds.update_buffers mask).1.getD (LED_MAP.getD i ⟨.Left, 0⟩).output 0
            = pwmOf mask i)
        ∧ ((LED_MAP.getD i ⟨.Left, 0⟩).controller = .Right →
          (Leds.update_buffers mask).2.getD (LED_MAP.getD i ⟨.Left, 0⟩).output 0
            = pwmOf mask i) := by
  have hlen1 : (Leds.update_buffers mask).1.length = 16 := by
    rw [update_buffers_eq]
    simp [portsL]
  have hlen2 : (Leds.update_buffers mask).2.length = 16 := by
    rw [update_buffers_eq]
    simp [portsR]
  refine ⟨?_, ?_, hlen1, hlen2, ?_⟩
  · simp only [Leds.update_led_state, Pca9956B.set_all_led_pwm, hlen1, hlen2,
      Pca9956B.write_buffer, hL, hR, NUM_LEDS]
    norm_num
  · simp only [Leds.update_led_state, Pca9956B.set_all_led_pwm, hlen1, hlen2,
      Pca9956B.write_buffer, hL, hR, NUM_LEDS]
    norm_num [List.map]
  · intro i hi
    simp only [update_buffers_eq]
    interval_cases i <;>
      exact ⟨fun h => by first | rfl | exact absurd h (by decide),
             fun h => by first | rfl | exact absurd h (by decide)⟩

/-- Witness for `C5_two_bursts` with mask 3 and healthy buses. -/
theorem C5_two_bursts_witness :
    (Leds.update_led_state envClean envClean 3).1 = .ok () :=
  (C5_two_bursts 3 envClean envClean (fun _ => rfl) (fun _ => rfl)).1

/-!  `drv/sidecar-seq-server/src/front_io.rs` and the front-IO section of
`main.rs`.  The FPGA transport (`drv_fpga_api`) is external; its
operations are answered by a `CtrlEnv` oracle, indexed by call number
for the operations the code invokes more than once. -/

/-- `drv_fpga_api::DeviceState`, restricted to the values the embedded
code distinguishes. -/
inductive DeviceState where
  | AwaitingBitstream
  | RunningUserDesign
  | Unknown
deriving DecidableEq

/-- `front_io::FrontIOError`. -/
inductive FrontIOError where
  | FpgaError
  | I2cError
deriving DecidableEq

/-- Operations `FrontIOBoard::init` issues against one controller, in
trace order. -/
inductive CtrlOp where
  | awaitReady
  | identValid
  | checksumValid
  | fpgaReset
  | loadBitstream
  | writeChecksum
deriving DecidableEq

/-- Oracle for one `FrontIOController`: the outcome of each FPGA-side
operation.  `identValid`/`checksumValid` are indexed by call number
(0 = first call, 1 = second), since `init` may invoke them twice; they
return the raw identity/checksum word and its validity. -/
structure CtrlEnv where
  awaitReady : Except Nat DeviceState
  identValid : Nat → Except Nat (Nat × Bool)
  checksumValid : Nat → Except Nat (Nat × Bool)
  fpgaReset : Except Nat Unit
  loadBitstream : Except Nat Unit
  writeChecksum : Except Nat Unit

/-- The load-and-lock branch of `FrontIOBoard::init` (taken whenever
`ident_valid && checksum_valid` does not already hold): load the
bitstream, re-read the identity, write the checksum-lock fuses, then
read back the checksum; `callIdx` is the number of identity/checksum
reads already made, `tr` the trace so far. -/
def ctrlInitLoad (env : CtrlEnv) (callIdx : Nat) (tr : List CtrlOp) :
    Except FrontIOError Bool × List CtrlOp :=
  match env.loadBitstream with
  | .error _ => (.error .FpgaError, tr ++ [.loadBitstream])
  | .ok _ =>
    match env.identValid callIdx with
    | .error _ => (.error .FpgaError, tr ++ [.loadBitstream, .identValid])
    | .ok (_, iv) =>
      match env.writeChecksum with
      | .error _ =>
        (.error .FpgaError, tr ++ [.loadBitstream, .identValid, .writeChecksum])
      | .ok _ =>
        match env.checksumValid callIdx with
        | .error _ =>
          (.error .FpgaError,
            tr ++ [.loadBitstream, .identValid, .writeChecksum, .checksumValid])
        | .ok (_, cv) =>
          (.ok (iv && cv),
            tr ++ [.loadBitstream, .identValid, .writeChecksum, .checksumValid])

/-- One iteration of the `FrontIOBoard::init` loop, for one controller:
await readiness; if already `RunningUserDesign`, read identity and
checksum validity and, on a mismatch, reset the FPGA (forcing a single
reload); if identity and checksum are both valid, skip loading,
otherwise run the load-and-lock branch.  Returns the controller's
`ident_valid && checksum_valid` contribution. -/
def ctrlInit (env : CtrlEnv) : Except FrontIOError Bool × List CtrlOp :=
  match env.awaitReady with
  | .error _ => (.error .FpgaError, [.awaitReady])
  | .ok state =>
    if state = DeviceState.RunningUserDesign then
      match env.identValid 0 with
      | .error _ => (.error .FpgaError, [.awaitReady, .identValid])
      | .ok (_, iv1) =>
        match env.checksumValid 0 with
        | .error _ => (.error .FpgaError, [.awaitReady, .identValid, .checksumValid])
        | .ok (_, cv1) =>
          if !iv1 || !cv1 then
            match env.fpgaReset with
            | .error _ =>
              (.error .FpgaError,
                [.awaitReady, .identValid, .checksumValid, .fpgaReset])
            | .ok _ =>
              ctrlInitLoad env 1 [.awaitReady, .identValid, .checksumValid, .fpgaReset]
          else
            (.ok (iv1 && cv1), [.awaitReady, .identValid, .checksumValid])
    else
      ctrlInitLoad env 0 [.awaitReady]

/-- `FrontIOBoard::init`: runs the loop body for both controllers,
propagating FPGA errors and AND-ing the two readiness contributions
into `controllers_ready` (initially `true`). -/
def FrontIOBoard.init (e0 e1 : CtrlEnv) : Except FrontIOError Bool × List CtrlOp :=
  match ctrlInit e0 with
  | (.error e, t0) => (.error e, t0)
  | (.ok r0, t0) =>
    match ctrlInit e1 with
    | (.error e, t1) => (.error e, t0 ++ t1)
    | (.ok r1, t1) => (.ok ((true && r0) && r1), t0 ++ t1)

/-- `FrontIOBoard::enable_led_controllers`: enables the LED controller
on each FPGA (external operations `fpga0`, `fpga1`), then writes the
default current reference (`IREFALL := 222`) to both LED drivers. -/
def FrontIOBoard.enable_led_controllers (fpga0 fpga1 : Except Nat Unit)
    (busL busR : BusEnv) : Except FrontIOError Unit × List (LedController × BusOp) :=
  match fpga0 with
  | .error _ => (.error .FpgaError, [])
  | .ok _ =>
    match fpga1 with
    | .error _ => (.error .FpgaError, [])
    | .ok _ =>
      match Pca9956B.set_iref_all busL DEFAULT_LED_CURRENT with
      | (.error _, t) => (.error .I2cError, t.map (fun op => (LedController.Left, op)))
      | (.ok _, tL) =>
        match Pca9956B.set_iref_all busR DEFAULT_LED_CURRENT with
        | (.error _, t) =>
          (.error .I2cError, tL.map (fun op => (LedController.Left, op))
            ++ t.map (fun op => (LedController.Right, op)))
        | (.ok _, tR) =>
          (.ok (), tL.map (fun op => (LedController.Left, op))
            ++ tR.map (fun op => (LedController.Right, op)))

/-- Outcome of the front-IO section of `sidecar-seq-server`'s `main`:
the board was absent and skipped, the task aborted (`panic!()` or a
failed `.unwrap()`), or bring-up completed. -/
inductive OrchOutcome where
  | skipped
  | panicked
  | completed
deriving DecidableEq

/-- The front-IO board section of `main` (`main.rs` lines 551-573):
if the board is present, `init()` is `.unwrap()`-ed (a returned error
aborts the task) and a `false` readiness result hits an explicit
`panic!()`; only then are the PHY powered (its `.unwrap()`s abstracted
by `phyOk`) and the LED controllers enabled, `.unwrap()`-ed again.
Returns the outcome together with the LED-driver bus operations
issued. -/
def mainFrontIoSection (present : Bool) (e0 e1 : CtrlEnv) (phyOk : Bool)
    (fpga0 fpga1 : Except Nat Unit) (busL busR : BusEnv) :
    OrchOutcome × List (LedController × BusOp) :=
  if present then
    match (FrontIOBoard.init e0 e1).1 with
    | .error _ => (.panicked, [])
    | .ok ready =>
      if ready then
        if phyOk then
          match FrontIOBoard.enable_led_controllers fpga0 fpga1 busL busR with
          | (.error _, t) => (.panicked, t)
          | (.ok _, t) => (.completed, t)
        else (.panicked, [])
      else (.panicked, [])
  else (.skipped, [])

/-- Claim C7: for one controller's bring-up,
(a) from `AwaitingBitstream`, whenever `init` returns `Ok` the trace is
exactly load, identity read, checksum-lock write, checksum read — the
lock write always follows a successful load before success is
returned;
(b) from `RunningUserDesign` with valid identity and checksum, the
result is `Ok(true)` and the trace contains neither a load nor a lock
write;
(c) after a first mismatch, exactly one reset-and-reload is performed,
and a second consecutive mismatch yields `Ok(false)` — surfaced to the
caller with no further retry in the trace. -/
theorem C7_bringup_protocol (env : CtrlEnv) :
    (env.awaitReady = .ok .AwaitingBitstream →
      ∀ r, (ctrlInit env).1 = .ok r →
        (ctrlInit env).2 =
          [.awaitReady, .loadBitstream, .identValid, .writeChecksum, .checksumValid])
    ∧ (∀ id0 ck0, env.awaitReady = .ok .RunningUserDesign →
        env.identValid 0 = .ok (id0, true) →
        env.checksumValid 0 = .ok (ck0, true) →
        ctrlInit env = (.ok true, [.awaitReady, .identValid, .checksumValid]))
    ∧ (∀ id0 ck0 b0 d0 id1 ck1 b1 d1,
        env.awaitReady = .ok .RunningUserDesign →
        env.identValid 0 = .ok (id0, b0) →
        env.checksumValid 0 = .ok (ck0, d0) →
        (b0 && d0) = false →
        env.fpgaReset = .ok () →
        env.loadBitstream = .ok () →
        env.identValid 1 = .ok (id1, b1) →
        env.writeChecksum = .ok () →
        env.checksumValid 1 = .ok (ck1, d1) →
        (b1 && d1) = false →
        ctrlInit env = (.ok false,
          [.awaitReady, .identValid, .checksumValid, .fpgaReset,
            .loadBitstream, .identValid, .writeChecksum, .checksumValid])) := by
  refine ⟨?_, ?_, ?_⟩
  · intro h r hok
    simp only [ctrlInit, h] at hok ⊢
    cases hl : env.loadBitstream with
    | error c => simp [ctrlInitLoad, hl] at hok
    | ok u =>
      cases hi : env.identValid 0 with
      | error c => simp [ctrlInitLoad, hl, hi] at hok
      | ok p =>
        obtain ⟨ia, ib⟩ := p
        cases hw : env.writeChecksum with
        | error c => simp [ctrlInitLoad, hl, hi, hw] at hok
        | ok u2 =>
          cases hc : env.checksumValid 0 with
          | error c => simp [ctrlInitLoad, hl, hi, hw, hc] at hok
          | ok q =>
            obtain ⟨ca, cb⟩ := q
            simp [ctrlInitLoad, hl, hi, hw, hc]
  · intro id0 ck0 h hi hc
    simp [ctrlInit, h, hi, hc]
  · intro id0 ck0 b0 d0 id1 ck1 b1 d1 h hi0 hc0 hb0 hr hl hi1 hw hc1 hb1
    cases b0 <;> cases d0 <;>
      simp_all [ctrlInit, ctrlInitLoad]

/-- Concrete all-succeeding controller starting in `AwaitingBitstream`. -/
def envCtrlAwait : CtrlEnv :=
  { awaitReady := .ok .AwaitingBitstream
    identValid := fun _ => .ok (7, true)
    checksumValid := fun _ => .ok (9, true)
    fpgaReset := .ok ()
    loadBitstream := .ok ()
    writeChecksum := .ok () }

/-- Concrete controller already running a verified design. -/
def envCtrlGood : CtrlEnv :=
  { awaitReady := .ok .RunningUserDesign
    identValid := fun _ => .ok (7, true)
    checksumValid := fun _ => .ok (9, true)
    fpgaReset := .ok ()
    loadBitstream := .ok ()
    writeChecksum := .ok () }

/-- Concrete controller whose identity/checksum never validate: the
reset-and-reload retry also ends in a mismatch. -/
def envCtrlBad : CtrlEnv :=
  { awaitReady := .ok .RunningUserDesign
    identValid := fun _ => .ok (0, false)
    checksumValid := fun _ => .ok (0, false)
    fpgaReset := .ok ()
    loadBitstream := .ok ()
    writeChecksum := .ok () }

/-- Witness for `C7_bringup_protocol` at the three concrete
controllers. -/
theorem C7_bringup_protocol_witness :
    (ctrlInit envCtrlAwait).2 =
      [.awaitReady, .loadBitstream, .identValid, .writeChecksum, .checksumValid]
    ∧ ctrlInit envCtrlGood = (.ok true, [.awaitReady, .identValid, .checksumValid])
    ∧ ctrlInit envCtrlBad = (.ok false,
        [.awaitReady, .identValid, .checksumValid, .fpgaReset,
          .loadBitstream, .identValid, .writeChecksum, .checksumValid]) :=
  ⟨(C7_bringup_protocol envCtrlAwait).1 rfl true rfl,
    (C7_bringup_protocol envCtrlGood).2.1 7 9 rfl rfl rfl,
    (C7_bringup_protocol envCtrlBad).2.2 0 0 false false 0 0 false false
      rfl rfl rfl rfl rfl rfl rfl rfl rfl rfl⟩

/-- Claim C8, counterexample: with the board present and both
controllers failing verification even after the reload (`init` returns
`Ok(false)`), the front-IO section of `main` aborts the task
(`panic!()`), modelled as the `panicked` outcome — it does not return a
typed error to any caller. -/
theorem C8_counterexample :
    (FrontIOBoard.init envCtrlBad envCtrlBad).1 = .ok false
    ∧ mainFrontIoSection true envCtrlBad envCtrlBad true (.ok ()) (.ok ()) envClean envClean
        = (.panicked, []) := by
  decide

/-- Claim C8 as amended: dependent hardware (the LED current reference,
via `enable_led_controllers`) is touched only when `init` reports both
controllers verified (`Ok(true)`); but a controller left unverified, or
an `init` error, makes the bring-up section abort the whole task
(`panic!()` / `.unwrap()`), not return a typed error; an absent board
is skipped normally. -/
theorem C8_enable_gated_but_aborts (e0 e1 : CtrlEnv) (phyOk : Bool)
    (fpga0 fpga1 : Except Nat Unit) (busL busR : BusEnv) :
    ((mainFrontIoSection true e0 e1 phyOk fpga0 fpga1 busL busR).2 ≠ [] →
      (FrontIOBoard.init e0 e1).1 = .ok true)
    ∧ ((FrontIOBoard.init e0 e1).1 = .ok false →
        mainFrontIoSection true e0 e1 phyOk fpga0 fpga1 busL busR = (.panicked, []))
    ∧ (∀ er, (FrontIOBoard.init e0 e1).1 = .error er →
        mainFrontIoSection true e0 e1 phyOk fpga0 fpga1 busL busR = (.panicked, []))
    ∧ mainFrontIoSection false e0 e1 phyOk fpga0 fpga1 busL busR = (.skipped, []) := by
  refine ⟨?_, ?_, ?_, ?_⟩
  · intro hne
    cases hinit : (FrontIOBoard.init e0 e1).1 with
    | error e => simp [mainFrontIoSection, hinit] at hne
    | ok ready =>
      cases ready with
      | false => simp [mainFrontIoSection, hinit] at hne
      | true => rfl
  · intro hinit
    simp [mainFrontIoSection, hinit]
  · intro er hinit
    simp [mainFrontIoSection, hinit]
  · simp [mainFrontIoSection]

/-- Witness for `C8_enable_gated_but_aborts` at the concrete
failing-verification controllers. -/
theorem C8_enable_gated_but_aborts_witness :
    mainFrontIoSection true envCtrlBad envCtrlBad true (.ok ()) (.ok ()) envClean envClean
      = (.panicked, []) :=
  (C8_enable_gated_but_aborts envCtrlBad envCtrlBad true (.ok ()) (.ok ())
    envClean envClean).2.1 (by decide)

/-!  Periodic timer handlers.  -/

namespace SidecarSeq

/-- `sidecar-seq-server::TIMER_INTERVAL = 1000`. -/
def TIMER_INTERVAL : Nat := 1000

/-- `sidecar-seq-server`'s `ServerImpl::handle_notification`: reads the
time on entry (`start`) and after the tick work (`finish`), then
re-arms the timer to `finish + TIMER_INTERVAL - (delta % TIMER_INTERVAL)`
where `delta = finish - start`.  (The source's comment assumes the u64
timer does not roll over, i.e. `start <= finish`.) -/
def handle_notification (start finish : Nat) : Nat :=
  let delta := finish - start
  finish + TIMER_INTERVAL - delta % TIMER_INTERVAL

end SidecarSeq

namespace Transceivers

/-- `transceivers-server::TIMER_INTERVAL = 500`. -/
def TIMER_INTERVAL : Nat := 500

/-- `transceivers-server`'s `ServerImpl::handle_notification`: if the
stored deadline has passed, the new deadline is `now + TIMER_INTERVAL`;
otherwise the old deadline is re-armed unchanged. -/
def handle_notification (deadline now : Nat) : Nat :=
  if now ≥ deadline then now + TIMER_INTERVAL else deadline

end Transceivers

/-- Claim C10, counterexample: the transceivers-server periodic handler
(one of the two handlers the claim covers) does not set the deadline to
`finish + INTERVAL - (elapsed mod INTERVAL)`.  Woken at `now = 300`
with the pending deadline 500 (and no tick work, so `finish = 300`,
`elapsed = 0`), the claimed formula gives 800, but the handler re-arms
the old deadline 500. -/
theorem C10_counterexample :
    Transceivers.handle_notification 500 300 = 500
    ∧ (300 : Nat) + Transceivers.TIMER_INTERVAL
        - ((300 - 300) % Transceivers.TIMER_INTERVAL) = 800
    ∧ (500 : Nat) ≠ 800 := by
  decide

/-- Claim C10 as amended: the sidecar-seq-server handler does re-arm to
`finish + INTERVAL - (elapsed mod INTERVAL)`; this is the unique next
interval boundary phase-locked to `start` (it is congruent to `start`
modulo the interval and lies in `(finish, finish + INTERVAL]`), so
ticks do not drift under load.  The transceivers-server handler instead
adds one interval to the current time whenever the deadline has
passed. -/
theorem C10_phase_locked_rearm (start finish : Nat) (h : start ≤ finish) :
    SidecarSeq.handle_notification start finish
      = finish + SidecarSeq.TIMER_INTERVAL
        - ((finish - start) % SidecarSeq.TIMER_INTERVAL)
    ∧ SidecarSeq.handle_notification start finish % SidecarSeq.TIMER_INTERVAL
        = start % SidecarSeq.TIMER_INTERVAL
    ∧ finish < SidecarSeq.handle_notification start finish
    ∧ SidecarSeq.handle_notification start finish ≤ finish + SidecarSeq.TIMER_INTERVAL
    ∧ (∀ deadline now : Nat, deadline ≤ now →
        Transceivers.handle_notification deadline now = now + Transceivers.TIMER_INTERVAL) := by
  refine ⟨rfl, ?_, ?_, ?_, ?_⟩
  · simp only [SidecarSeq.handle_notification, SidecarSeq.TIMER_INTERVAL]
    omega
  · simp only [SidecarSeq.handle_notification, SidecarSeq.TIMER_INTERVAL]
    omega
  · simp only [SidecarSeq.handle_notification, SidecarSeq.TIMER_INTERVAL]
    omega
  · intro deadline now h2
    simp only [Transceivers.handle_notification]
    rw [if_pos h2]

/-- Witness for `C10_phase_locked_rearm` at `start = 0`,
`finish = 250`. -/
theorem C10_phase_locked_rearm_witness :
    SidecarSeq.handle_notification 0 250 % SidecarSeq.TIMER_INTERVAL
      = 0 % SidecarSeq.TIMER_INTERVAL :=
  (C10_phase_locked_rearm 0 250 (by decide)).2.1

end Hubris
